import Mathlib

/-!
Verification development for the node API controller of a bare-metal
fleet manager (`ironic/api/controllers/v1/node.py`).

The controller code is embedded shallowly: each handler becomes a pure
Lean function from its inputs (the stored node record, the request
parameters, the hash-ring/ownership map, configuration) to either a typed
API error or the RPC action it dispatches.  The API layer itself never
writes to storage: every mutation happens in a conductor behind an RPC
call, so a handler run that returns an error dispatches nothing and
leaves every stored field unchanged.

Supporting modules referenced by the controller (`ironic.common.states`,
`ironic.api.controllers.v1.utils`, `ironic.api.controllers.v1.types`,
`ironic.conductor.utils`) are not part of the included sources; the
definitions standing in for them are modelled from the specification and
say so in their doc comments.  Policy authorization and API-version
gating of request fields are out of the specification's scope and are
not modelled.
-/

namespace Ironic

/-- JSON values, as delivered by the API layer's `jsontype` request
parameters (clean steps, patch values). -/
inductive Json where
  | null : Json
  | bool : Bool → Json
  | num : Int → Json
  | str : String → Json
  | arr : List Json → Json
  | obj : List (String × Json) → Json

/-- Python truthiness of a JSON value: `None`, `False`, `0`, `""`, `[]`
and `{}` are falsy, everything else is truthy. -/
def Json.truthy : Json → Bool
  | .null => false
  | .bool b => b
  | .num n => n != 0
  | .str s => s != ""
  | .arr xs => !xs.isEmpty
  | .obj kvs => !kvs.isEmpty

/-- Python truthiness of an optional JSON request parameter
(`None` is falsy). -/
def jsonOptTruthy : Option Json → Bool
  | none => false
  | some j => j.truthy

/-- Python truthiness of an optional string (absent and empty are
falsy). -/
def strOptTruthy : Option String → Bool
  | none => false
  | some s => s != ""

/-- Modelled from the spec: the provision-state tokens of
`ironic.common.states` (not included in the sources).  The spec fixes
the state set in section 3 and the legacy "no state" value is the absent
string. -/
def ACTIVE : String := "active"

/-- Modelled from the spec: the `rebuild` target token. -/
def REBUILD : String := "rebuild"

/-- Modelled from the spec: the `deleted` target token. -/
def DELETED : String := "deleted"

/-- Modelled from the spec: the `available` provision state. -/
def AVAILABLE : String := "available"

/-- Modelled from the spec: the `deploying` provision state. -/
def DEPLOYING : String := "deploying"

/-- Modelled from the spec: the legacy "no state" value, the null
provision state. -/
def NOSTATE : Option String := none

/-- Modelled from the spec: `ironic.common.states.VERBS`, the map from
API target tokens to state-machine events.  Section 6 fixes the verb set
(`manage`, `provide`, `deploy`, `rebuild`, `delete`, `inspect`, `clean`,
`abort`, `adopt`); the target tokens `active` and `deleted` stand for
the `deploy` and `delete` events, the remaining verbs name their own
event. -/
def VERBS : List (String × String) :=
  [("active", "deploy"), ("deleted", "delete"), ("manage", "manage"),
   ("provide", "provide"), ("inspect", "inspect"), ("abort", "abort"),
   ("clean", "clean"), ("adopt", "adopt")]

/-- The Python idiom `VERBS.get(target, target)`: translate a target
token to its event, leaving unknown tokens unchanged. -/
def verbsGet (target : String) : String := (VERBS.lookup target).getD target

/-- States where calling `do_provisioning_action` makes sense
(`PROVISION_ACTION_STATES` of the source, built from the verb map). -/
def PROVISION_ACTION_STATES : List String :=
  ["manage", "provide", "abort", "adopt"]

/-- Modelled from the spec: the fixed transition table of the
provisioning state machine (spec sections 3, 4.1 and 8), pairing
(state, event) with the successor state.  The table is fixed at build
time; an event with no edge from the current state is not actionable. -/
def fsm_transitions : List ((String × String) × String) :=
  [(("enrolling", "manage"), "manageable"),
   (("manageable", "provide"), "cleaning"),
   (("manageable", "clean"), "cleaning"),
   (("manageable", "inspect"), "inspecting"),
   (("manageable", "adopt"), "adopting"),
   (("cleaning", "done"), "available"),
   (("cleaning", "fail"), "clean-failed"),
   (("clean-wait", "abort"), "clean-failed"),
   (("clean-failed", "manage"), "manageable"),
   (("available", "deploy"), "deploying"),
   (("available", "manage"), "manageable"),
   (("deploying", "done"), "active"),
   (("deploying", "fail"), "deploy-failed"),
   (("deploy-failed", "rebuild"), "rebuilding"),
   (("deploy-failed", "deploy"), "deploying"),
   (("deploy-failed", "delete"), "deleting"),
   (("active", "delete"), "deleting"),
   (("active", "rebuild"), "rebuilding"),
   (("deleting", "done"), "cleaning"),
   (("inspecting", "done"), "manageable"),
   (("inspecting", "fail"), "inspect-failed"),
   (("adopting", "done"), "active"),
   (("adopting", "fail"), "adopt-failed"),
   (("error", "delete"), "deleting")]

/-- Modelled from the spec: `fsm.is_actionable_event` of the state
machine — whether the event has an edge from the current state.  The
null legacy state has no outgoing edges. -/
def is_actionable_event (st : Option String) (ev : String) : Bool :=
  match st with
  | none => false
  | some s => (fsm_transitions.map Prod.fst).contains (s, ev)

/-- The stored node record, restricted to the fields the node API
controller reads or writes (`objects.Node` fields exposed by the API
`Node` type of the source). -/
structure Node where
  uuid : String
  name : Option String
  driver : String
  instance_uuid : Option String
  provision_state : Option String
  target_provision_state : Option String
  power_state : Option String
  target_power_state : Option String
  last_error : Option String
  reservation : Option String
  console_enabled : Bool
  maintenance : Bool
  provision_updated_at : Option Nat
  driver_internal_info : Json
  clean_step : Json
  raid_config : Json
  target_raid_config : Json
  network_interface : Option String
  resource_class : Option String

/-- The typed errors the node API controller raises.  Numeric HTTP
status codes are carried where the source sets or re-codes them. -/
inductive ApiError where
  | nodeInMaintenance (node : String)
  | nodeLocked (node : String) (host : String)
  | invalidStateRequested (action : String) (node : String) (state : Option String)
  | invalidStateMessage (action : String)
  | clientSideError (code : Nat)
  | invalidParameterValue
  | noValidHost (code : Nat)
  | patchValidationError (path : String)
deriving Repr, DecidableEq

/-- Whether an API error is an `InvalidStateRequested` (either raise
site of the source: by state or by message). -/
def ApiError.isInvalidState : ApiError → Bool
  | .invalidStateRequested _ _ _ => true
  | .invalidStateMessage _ => true
  | _ => false

/-- The RPC actions a handler can dispatch to the owning conductor.
Dispatching one of these is the only way the API layer causes any
mutation of stored state. -/
inductive RpcAction where
  | doNodeDeploy (uuid : String) (rebuild : Bool) (configdrive : Option String)
  | doNodeTearDown (uuid : String)
  | inspectHardware (uuid : String)
  | doNodeClean (uuid : String) (steps : Json)
  | doProvisioningAction (uuid : String) (target : String)
  | destroyNode (uuid : String)
  | updateNode (uuid : String)

/-- Whether a handler outcome failed with `InvalidStateRequested`. -/
def invalidStateResult : Except ApiError RpcAction → Bool
  | .error e => e.isInvalidState
  | .ok _ => false

/-- Whether a handler outcome dispatched an RPC action (as opposed to
failing synchronously). -/
def dispatched : Except ApiError RpcAction → Bool
  | .error _ => false
  | .ok _ => true

/-- Configuration and deployment-scoped data the handlers consult:
request API minor version, enabled network interfaces, the configured
initial provision state for created nodes, the provision states from
which a node may be updated, the cleaning-capable driver interfaces,
node name validity and the reserved names. -/
structure ApiConfig where
  apiVersion : Nat
  enabledNetworkInterfaces : List String
  initialProvisionState : Option String
  updateAllowedStates : List String
  cleaningInterfaces : List String
  validNodeName : String → Bool
  reservedNames : List String

/-- One key/value entry of a clean step against the item schema of
`_CLEAN_STEPS_SCHEMA`: `interface` must be drawn from the
cleaning-capable interfaces, `step` must be a non-empty string, `args`
must be an object, and any other key is an unexpected additional
property. -/
def cleanStepKeyOk (allowed : List String) (kv : String × Json) : Bool :=
  if kv.1 == "interface" then
    match kv.2 with
    | .str s => allowed.contains s
    | _ => false
  else if kv.1 == "step" then
    match kv.2 with
    | .str s => s != ""
    | _ => false
  else if kv.1 == "args" then
    match kv.2 with
    | .obj _ => true
    | _ => false
  else false

/-- One clean step against the item schema of `_CLEAN_STEPS_SCHEMA`:
an object whose required keys are `interface` and `step` and all of
whose entries are acceptable. -/
def validCleanStep (allowed : List String) : Json → Bool
  | .obj kvs =>
      (kvs.map Prod.fst).contains "interface" &&
      (kvs.map Prod.fst).contains "step" &&
      kvs.all (cleanStepKeyOk allowed)
  | _ => false

/-- Validation of a clean-steps document against `_CLEAN_STEPS_SCHEMA`
(`jsonschema.validate` inside `_check_clean_steps`): a JSON array each
of whose items is a valid clean step. -/
def checkCleanSteps (allowed : List String) : Json → Bool
  | .arr steps => steps.all (validCleanStep allowed)
  | _ => false

/-- Shallow embedding of `NodeStatesController.provision`.  `ring` is
the hash-ring ownership map (`get_topic_for`): the RPC topic serving a
driver, absent when no conductor supports it.  The handler resolves the
topic, rejects provisioning of a maintenance node for the `active` and
`rebuild` targets, checks the requested event is actionable from the
node's current provision state (reporting the held reservation as
`NodeLocked` when it is not), validates the `configdrive` and
`clean_steps` parameters against the target, and finally dispatches the
RPC action for the recognized targets, rejecting everything else with
`InvalidStateRequested`. -/
def provision (cfg : ApiConfig) (ring : String → Option String)
    (node : Node) (target : String) (configdrive : Option String)
    (clean_steps : Option Json) : Except ApiError RpcAction :=
  match ring node.driver with
  | none => .error (.noValidHost 404)
  | some _ =>
    if (target == ACTIVE || target == REBUILD) && node.maintenance then
      .error (.nodeInMaintenance node.uuid)
    else if !is_actionable_event node.provision_state (verbsGet target) then
      if strOptTruthy node.reservation then
        .error (.nodeLocked node.uuid (node.reservation.getD ""))
      else
        .error (.invalidStateRequested target node.uuid node.provision_state)
    else if strOptTruthy configdrive && target != ACTIVE then
      .error (.clientSideError 400)
    else if jsonOptTruthy clean_steps && target != "clean" then
      .error (.clientSideError 400)
    else if target == ACTIVE then
      .ok (.doNodeDeploy node.uuid false configdrive)
    else if target == REBUILD then
      .ok (.doNodeDeploy node.uuid true none)
    else if target == DELETED then
      .ok (.doNodeTearDown node.uuid)
    else if target == "inspect" then
      .ok (.inspectHardware node.uuid)
    else if target == "clean" then
      match clean_steps with
      | none => .error (.clientSideError 400)
      | some steps =>
        if !steps.truthy then
          .error (.clientSideError 400)
        else if checkCleanSteps cfg.cleaningInterfaces steps then
          .ok (.doNodeClean node.uuid steps)
        else
          .error .invalidParameterValue
    else if PROVISION_ACTION_STATES.contains target then
      .ok (.doProvisioningAction node.uuid target)
    else
      .error (.invalidStateMessage target)

/-- A JSON-patch operation as parsed by the API layer: an op name, a
path, and a value (absent for `remove` operations). -/
structure PatchOp where
  op : String
  path : String
  value : Option Json

/-- Modelled from the spec: the base internal attributes of the JSON
patch type (`JsonPatchType.internal_attrs` of the excluded
`v1/types.py`): the API-managed identity and timestamp fields. -/
def JsonPatchType_internal_attrs : List String :=
  ["/created_at", "/id", "/links", "/updated_at", "/uuid"]

/-- `NodePatchType.internal_attrs` of the source: the base internal
attributes plus the node lifecycle fields that only the conductor may
mutate. -/
def NodePatchType_internal_attrs : List String :=
  JsonPatchType_internal_attrs ++
  ["/console_enabled", "/last_error",
   "/power_state", "/provision_state", "/reservation",
   "/target_power_state", "/target_provision_state",
   "/provision_updated_at", "/maintenance_reason",
   "/driver_internal_info", "/inspection_finished_at",
   "/inspection_started_at", "/clean_step",
   "/raid_config", "/target_raid_config"]

/-- `NodePatchType` non-removable attributes: the base type collects
the mandatory fields of the API object — for the node that is exactly
`/driver`, the `Node` type's only mandatory attribute — plus
`/chassis_uuid` from `_extra_non_removable_attrs` of the source.
(`/uuid` needs no entry here: it is already caught by the internal
attributes.) -/
def NodePatchType_non_removable : List String := ["/chassis_uuid", "/driver"]

/-- Split a character list on a separator, exactly like Python's
`str.split(sep)`: the empty input yields one empty field. -/
def splitOnChar (sep : Char) : List Char → List (List Char)
  | [] => [[]]
  | c :: cs =>
    match splitOnChar sep cs with
    | [] => if c == sep then [[], []] else [[c]]
    | h :: t => if c == sep then [] :: h :: t else (c :: h) :: t

/-- The root segment of a patch path, as computed by the patch
validator: `'/' + path.split('/')[1]`, so that patching below an
internal attribute is also caught. -/
def pathRoot (p : String) : String :=
  "/" ++ String.mk (((splitOnChar '/' p.data).drop 1).headD [])

/-- Modelled from the spec: validation of a single patch operation by
the JSON patch type (`JsonPatchType.validate` of the excluded
`v1/types.py`, parameterized by `NodePatchType`): an operation on an
internal attribute is rejected, a mandatory attribute may not be
removed, and non-remove operations need a value. -/
def NodePatchType_validate (p : PatchOp) : Bool :=
  !(NodePatchType_internal_attrs.contains (pathRoot p.path)) &&
  !(NodePatchType_non_removable.contains p.path && p.op == "remove") &&
  (p.op == "remove" || p.value.isSome)

/-- `api_utils.get_patch_values`: the values of the non-remove
operations of the patch that touch the given path. -/
def get_patch_values (patch : List PatchOp) (path : String) : List (Option Json) :=
  (patch.filter (fun p => p.path == path && p.op != "remove")).map (fun p => p.value)

/-- Whether a patch value supplied for `/network_interface` is invalid:
a null value is skipped, a string must be one of the enabled network
interfaces, anything else is invalid. -/
def badNetworkInterfaceValue (cfg : ApiConfig) : Option Json → Bool
  | none => false
  | some .null => false
  | some (.str s) => !(cfg.enabledNetworkInterfaces.contains s)
  | some _ => true

/-- The patch that solely removes `/instance_uuid`
(`remove_inst_uuid_patch` of the source). -/
def isRemoveInstUuidPatch : List PatchOp → Bool
  | [p] => p.op == "remove" && p.path == "/instance_uuid" && p.value.isNone
  | _ => false

/-- Whether a patched node name value is unacceptable
(`_check_names_acceptable`): a non-string value, an invalid logical
name, or a reserved name. -/
def badNameValue (cfg : ApiConfig) : Option Json → Bool
  | some (.str s) => !(cfg.validNodeName s) || cfg.reservedNames.contains s
  | _ => true

/-- Shallow embedding of the validation prefix of
`NodesController.patch`, everything the handler checks before the patch
document is applied and the update RPC is dispatched: per-operation
validation by the patch type (run by the request layer before the
handler body), validity of any supplied `/network_interface` values,
the conflict rejection of a node in a state transition — with the
stated exception of solely removing `/instance_uuid` from a node in
maintenance — and acceptability of any supplied `/name` values.  The
remainder of the handler (JSON-patch application and the `update_node`
RPC carrying the patched fields) runs only when this prefix returns
`ok`; an error here therefore means the stored node is not modified. -/
def patchGate (cfg : ApiConfig) (node : Node) (patch : List PatchOp) :
    Except ApiError Unit :=
  match patch.find? (fun p => !NodePatchType_validate p) with
  | some p => .error (.patchValidationError p.path)
  | none =>
    if (get_patch_values patch "/network_interface").any
        (badNetworkInterfaceValue cfg) then
      .error (.clientSideError 400)
    else if node.maintenance && isRemoveInstUuidPatch patch then
      .ok ()
    else if strOptTruthy node.target_provision_state &&
        !(match node.provision_state with
          | some s => cfg.updateAllowedStates.contains s
          | none => false) then
      .error (.clientSideError 409)
    else if (get_patch_values patch "/name").any (badNameValue cfg) then
      .error (.clientSideError 400)
    else
      .ok ()

/-- Whether the create request's `network_interface`, when supplied, is
one of the enabled network interfaces. -/
def networkInterfaceOk (cfg : ApiConfig) (node : Node) : Bool :=
  match node.network_interface with
  | some s => cfg.enabledNetworkInterfaces.contains s
  | none => true

/-- The create handler's UUID default: the node as sent when it carries
a UUID, otherwise the node with the freshly generated UUID filled in
(`node.uuid = uuidutils.generate_uuid()`). -/
def withGeneratedUuid (generated : String) (node : Node) : Node :=
  if node.uuid == "" then { node with uuid := generated } else node

/-- Shallow embedding of `NodesController.post`.  The handler validates
a supplied network interface against the enabled ones, generates a UUID
when the request carries none (`generated_uuid` stands for the fresh
`generate_uuid()` result), resolves the driver on the hash ring —
re-coding `NoValidHost` from 404 to 400 — checks a supplied logical
name for acceptability, forces the provision state to the configured
initial state regardless of anything the caller supplied, and persists
the node.  The returned node is the record handed to `create()`. -/
def NodesController_post (cfg : ApiConfig) (ring : String → Option String)
    (generated_uuid : String) (node : Node) : Except ApiError Node :=
  if !networkInterfaceOk cfg node then
    .error (.clientSideError 400)
  else
    match ring (withGeneratedUuid generated_uuid node).driver with
    | none => .error (.noValidHost 400)
    | some _ =>
      match (withGeneratedUuid generated_uuid node).name with
      | some nm =>
        if !(cfg.validNodeName nm) || cfg.reservedNames.contains nm then
          .error (.clientSideError 400)
        else
          .ok { withGeneratedUuid generated_uuid node with
                provision_state := cfg.initialProvisionState }
      | none =>
        .ok { withGeneratedUuid generated_uuid node with
              provision_state := cfg.initialProvisionState }

/-- Shallow embedding of `NodesController.delete`: resolve the owning
conductor on the hash ring — re-coding `NoValidHost` from 404 to 400 —
then dispatch the `destroy_node` RPC. -/
def NodesController_delete (ring : String → Option String) (node : Node) :
    Except ApiError RpcAction :=
  match ring node.driver with
  | none => .error (.noValidHost 400)
  | some _ => .ok (.destroyNode node.uuid)

/-- Modelled from the spec: the API minor version that introduced the
`available` state name (`versions.MINOR_2_AVAILABLE_STATE`; the value
is carried in the constant's name). -/
def MINOR_2_AVAILABLE_STATE : Nat := 2

/-- Modelled from the spec: the API minor version that introduced the
RAID configuration fields (`versions.MINOR_12_RAID_CONFIG`; the value
is carried in the constant's name). -/
def MINOR_12_RAID_CONFIG : Nat := 12

/-- `api_utils.allow_raid_config`: whether the request's API version
exposes the RAID configuration fields. -/
def allow_raid_config (v : Nat) : Bool := MINOR_12_RAID_CONFIG ≤ v

/-- `update_state_in_older_versions` of the source, restricted to the
field it changes: for requests below API version 1.2 a stored
`available` provision state is reported as the legacy no-state value. -/
def update_state_in_older_versions (v : Nat) (ps : Option String) : Option String :=
  if decide (v < MINOR_2_AVAILABLE_STATE) && ps == some AVAILABLE then NOSTATE
  else ps

/-- The wire representation of a node's states (`NodeStates` of the
source).  Each field is `none` when unset (not exposed at the request's
API version) and `some v` when set to the value `v`. -/
structure NodeStates where
  console_enabled : Option Bool
  last_error : Option (Option String)
  power_state : Option (Option String)
  provision_state : Option (Option String)
  target_power_state : Option (Option String)
  target_provision_state : Option (Option String)
  provision_updated_at : Option (Option Nat)
  raid_config : Option Json
  target_raid_config : Option Json

/-- `NodeStates.convert` of the source: copy the seven state attributes
from the stored node, extend with the RAID fields when the API version
allows them, then rewrite the provision state for older versions. -/
def NodeStates_convert (v : Nat) (n : Node) : NodeStates :=
  { console_enabled := some n.console_enabled
    last_error := some n.last_error
    power_state := some n.power_state
    provision_state := some (update_state_in_older_versions v n.provision_state)
    target_power_state := some n.target_power_state
    target_provision_state := some n.target_provision_state
    provision_updated_at := some n.provision_updated_at
    raid_config := if allow_raid_config v then some n.raid_config else none
    target_raid_config := if allow_raid_config v then some n.target_raid_config
                          else none }

/-- Shallow embedding of `NodeStatesController.get`: the handler reads
the stored node and returns its converted states; it acquires no lease
and performs no write, so the stored node after the request — the
second component — is the node it read. -/
def NodeStatesController_get (v : Nat) (n : Node) : NodeStates × Node :=
  (NodeStates_convert v n, n)

/-- Shallow embedding of `NodeVendorPassthruController.methods` with
the module-level `_VENDOR_METHODS` cache passed explicitly.  `rpc` is
the conductor's `get_node_vendor_passthru_methods` answer for a node
UUID.  On a cache hit for the node's driver the stored dictionary is
returned with no topic resolution and no RPC; on a miss the topic is
resolved, the RPC performed, and the result stored under the driver
name.  The result triple is the returned dictionary, the cache after
the call, and the number of RPC lookups performed. -/
def vendorPassthruMethods (ring : String → Option String)
    (rpc : String → String) (cache : List (String × String)) (node : Node) :
    Except ApiError (String × List (String × String) × Nat) :=
  match cache.lookup node.driver with
  | some m => .ok (m, cache, 0)
  | none =>
    match ring node.driver with
    | none => .error (.noValidHost 404)
    | some _ =>
      let ret := rpc node.uuid
      .ok (ret, (node.driver, ret) :: cache, 1)

/-- Whether a provision outcome failed with `NodeLocked`. -/
def nodeLockedResult : Except ApiError RpcAction → Bool
  | .error (.nodeLocked _ _) => true
  | _ => false

/-- Whether a provision outcome failed with `InvalidParameterValue`. -/
def invalidParameterResult : Except ApiError RpcAction → Bool
  | .error .invalidParameterValue => true
  | _ => false

/-- Whether a patch-gate outcome is the 409 state-transition conflict. -/
def conflict409 : Except ApiError Unit → Bool
  | .error (.clientSideError 409) => true
  | _ => false

/-- Whether a create outcome failed with `NoValidHost`. -/
def noValidHostResult : Except ApiError Node → Bool
  | .error (.noValidHost _) => true
  | _ => false

/-- A stored node fixture: an available, unreserved, healthy node. -/
def baseNode : Node :=
  { uuid := "node-1", name := none, driver := "fake-driver",
    instance_uuid := none, provision_state := some "available",
    target_provision_state := none, power_state := some "power off",
    target_power_state := none, last_error := none, reservation := none,
    console_enabled := false, maintenance := false,
    provision_updated_at := none, driver_internal_info := .obj [],
    clean_step := .obj [], raid_config := .obj [],
    target_raid_config := .obj [], network_interface := none,
    resource_class := none }

/-- A hash ring in which every driver is served. -/
def ringAll : String → Option String := fun _ => some "conductor-topic"

/-- A hash ring in which no driver is served. -/
def ringEmpty : String → Option String := fun _ => none

/-- A configuration fixture. -/
def cfg0 : ApiConfig :=
  { apiVersion := 16, enabledNetworkInterfaces := ["flat", "noop"],
    initialProvisionState := some "enrolling",
    updateAllowedStates :=
      ["active", "deploy-failed", "clean-failed", "inspecting",
       "inspect-failed", "adopt-failed", "error"],
    cleaningInterfaces := ["power", "management", "deploy", "raid"],
    validNodeName := fun s => s != "", reservedNames := ["detail", "validate"] }

/-- A node mid-deployment whose reservation is held by a conductor. -/
def deployingLockedNode : Node :=
  { baseNode with provision_state := some "deploying",
                  reservation := some "host-a" }

/-- C1 counterexample.  The claim says a `deploy` (target `active`)
request on a node in `deploying` is always rejected with
`InvalidStateRequested`; on this node, whose reservation is held — the
normal situation while an operation is in progress — the handler
instead rejects with `NodeLocked` naming the holder (the source keeps
this deliberately, to return HTTP 409 for a node being operated on). -/
theorem deploy_on_deploying_locked_counterexample :
    deployingLockedNode.provision_state = some "deploying" ∧
    provision cfg0 ringAll deployingLockedNode "active" none none =
      .error (.nodeLocked "node-1" "host-a") ∧
    invalidStateResult
      (provision cfg0 ringAll deployingLockedNode "active" none none) = false :=
  ⟨rfl, rfl, rfl⟩

/-- C1 (amended).  A `deploy` (target `active`) request on a node in
`deploying` never dispatches an RPC action and so leaves the stored
state unchanged; it is rejected with `NodeInMaintenance` when the node
is in maintenance mode, with `NodeLocked` naming the holding conductor
when a reservation is held, and with `InvalidStateRequested` otherwise
— in every case without acquiring any lock. -/
theorem deploy_on_deploying_rejected (cfg : ApiConfig)
    (ring : String → Option String) (n : Node) (tp : String)
    (htopic : ring n.driver = some tp)
    (hst : n.provision_state = some "deploying") :
    provision cfg ring n "active" none none =
      (if n.maintenance then .error (.nodeInMaintenance n.uuid)
       else if strOptTruthy n.reservation then
         .error (.nodeLocked n.uuid (n.reservation.getD ""))
       else .error (.invalidStateRequested "active" n.uuid (some "deploying"))) := by
  have hact : is_actionable_event (some "deploying") (verbsGet "active") = false := rfl
  unfold provision
  rw [htopic, hst, hact]
  simp [ACTIVE, REBUILD]

/-- C1 witness: the amended theorem applied to a concrete locked node. -/
theorem deploy_on_deploying_rejected_witness :
    ringAll deployingLockedNode.driver = some "conductor-topic" ∧
    deployingLockedNode.provision_state = some "deploying" ∧
    provision cfg0 ringAll deployingLockedNode "active" none none =
      .error (.nodeLocked "node-1" "host-a") :=
  ⟨rfl, rfl, by
    rw [deploy_on_deploying_rejected cfg0 ringAll deployingLockedNode
      "conductor-topic" rfl rfl]
    rfl⟩

/-- A locked node mid-deployment that is also in maintenance mode. -/
def deployingMaintLockedNode : Node :=
  { baseNode with provision_state := some "deploying",
                  reservation := some "host-a", maintenance := true }

/-- C2 counterexample.  The claim says every request whose event is not
actionable on a node with a non-null reservation fails with
`NodeLocked`.  On this node the requested event is not actionable and
the reservation is held, yet the handler rejects with
`NodeInMaintenance`: the maintenance check for the `active` target runs
before the actionability check. -/
theorem locked_unactionable_maintenance_counterexample :
    is_actionable_event deployingMaintLockedNode.provision_state
      (verbsGet "active") = false ∧
    deployingMaintLockedNode.reservation = some "host-a" ∧
    provision cfg0 ringAll deployingMaintLockedNode "active" none none =
      .error (.nodeInMaintenance "node-1") ∧
    nodeLockedResult
      (provision cfg0 ringAll deployingMaintLockedNode "active" none none)
      = false :=
  ⟨rfl, rfl, rfl, rfl⟩

/-- C2 (amended).  When the requested event is not actionable from the
node's provision state and the reservation is held (by a non-empty
conductor identity), the request fails with `NodeLocked` identifying
the node and the holding conductor, surfaced to the caller unchanged —
provided the maintenance rejection for the `active`/`rebuild` targets
did not fire first. -/
theorem unactionable_with_reservation_node_locked (cfg : ApiConfig)
    (ring : String → Option String) (n : Node) (tp target h : String)
    (cd : Option String) (cs : Option Json)
    (htopic : ring n.driver = some tp)
    (hact : is_actionable_event n.provision_state (verbsGet target) = false)
    (hres : n.reservation = some h) (hh : h ≠ "")
    (hmaint : ((target == ACTIVE || target == REBUILD) && n.maintenance) = false) :
    provision cfg ring n target cd cs = .error (.nodeLocked n.uuid h) := by
  unfold provision
  rw [htopic, hact, hmaint, hres]
  simp [strOptTruthy, hh]

/-- C2 witness: the amended theorem applied to a concrete locked node
not in maintenance. -/
theorem unactionable_with_reservation_node_locked_witness :
    is_actionable_event deployingLockedNode.provision_state
      (verbsGet "active") = false ∧
    deployingLockedNode.reservation = some "host-a" ∧
    provision cfg0 ringAll deployingLockedNode "active" none none =
      .error (.nodeLocked "node-1" "host-a") :=
  ⟨rfl, rfl,
    unactionable_with_reservation_node_locked cfg0 ringAll deployingLockedNode
      "conductor-topic" "active" "host-a" none none rfl rfl rfl
      (by decide) rfl⟩

/-- The target tokens the provision handler recognizes: the raw state
targets `active`, `rebuild`, `deleted` plus the verbs. -/
def recognizedTargets : List String :=
  ["active", "rebuild", "deleted", "manage", "provide", "inspect",
   "clean", "abort", "adopt"]

/-- An available node whose reservation is held by a conductor. -/
def availableLockedNode : Node :=
  { baseNode with reservation := some "host-b" }

/-- C3 counterexample.  The claim says a request with an unrecognized
target token always fails with `InvalidStateRequested`.  On a node
whose reservation is held the handler instead fails with `NodeLocked`:
the unrecognized token is not an actionable event, and the
actionability check reports the held reservation first. -/
theorem unrecognized_target_locked_counterexample :
    recognizedTargets.contains "bogus" = false ∧
    provision cfg0 ringAll availableLockedNode "bogus" none none =
      .error (.nodeLocked "node-1" "host-b") ∧
    invalidStateResult
      (provision cfg0 ringAll availableLockedNode "bogus" none none) = false :=
  ⟨rfl, rfl, rfl⟩

/-- C3 (amended).  A provision request whose target token is outside
the recognized set never dispatches an RPC action; when additionally no
reservation is held and no `configdrive` or `clean_steps` parameter
accompanies the request, it fails with `InvalidStateRequested` (a held
reservation yields `NodeLocked` instead, and an accompanying parameter
can yield its own client-side rejection first). -/
theorem unrecognized_target_rejected (cfg : ApiConfig)
    (ring : String → Option String) (n : Node) (tp target : String)
    (cd : Option String) (cs : Option Json)
    (htopic : ring n.driver = some tp)
    (hnot : recognizedTargets.contains target = false) :
    dispatched (provision cfg ring n target cd cs) = false ∧
    (n.reservation = none → cd = none → cs = none →
      invalidStateResult (provision cfg ring n target cd cs) = true) := by
  simp [recognizedTargets, List.elem_eq_mem] at hnot
  obtain ⟨h1, h2, h3, h4, h5, h6, h7, h8, h9⟩ := hnot
  have e1 : (target == ACTIVE) = false := by
    simp [ACTIVE, h1]
  have e2 : (target == REBUILD) = false := by
    simp [REBUILD, h2]
  have e3 : (target == DELETED) = false := by
    simp [DELETED, h3]
  have e4 : (target == "inspect") = false := by
    simp [h6]
  have e5 : (target == "clean") = false := by
    simp [h7]
  have e6 : PROVISION_ACTION_STATES.contains target = false := by
    simp [PROVISION_ACTION_STATES, List.elem_eq_mem, h4, h5, h8, h9]
  have m1 : ((target == ACTIVE || target == REBUILD) && n.maintenance) = false := by
    rw [e1, e2]; rfl
  have m6 : target ∉ PROVISION_ACTION_STATES := by
    simp [PROVISION_ACTION_STATES, h4, h5, h8, h9]
  constructor
  · unfold provision
    rw [htopic, m1]
    cases hae : is_actionable_event n.provision_state (verbsGet target) with
    | false =>
      cases hres : strOptTruthy n.reservation with
      | false => simp [hae, hres, dispatched]
      | true => simp [hae, hres, dispatched]
    | true =>
      cases hcd : strOptTruthy cd with
      | true => simp [hae, hcd, bne, e1, dispatched]
      | false =>
        cases hcs : jsonOptTruthy cs with
        | true => simp [hae, hcd, hcs, bne, e5, dispatched]
        | false =>
          simp [hae, hcd, hcs, bne, e1, e2, e3, e4, e5, m6, dispatched]
  · intro hres hcd hcs
    subst hcd; subst hcs
    unfold provision
    rw [htopic, m1]
    cases hae : is_actionable_event n.provision_state (verbsGet target) with
    | false =>
      simp [hae, hres, strOptTruthy, invalidStateResult,
        ApiError.isInvalidState]
    | true =>
      simp [hae, e1, e2, e3, e4, e5, m6, strOptTruthy, jsonOptTruthy,
        invalidStateResult, ApiError.isInvalidState]

/-- C3 witness: the amended theorem applied to an unreserved available
node and the unrecognized token. -/
theorem unrecognized_target_rejected_witness :
    recognizedTargets.contains "bogus" = false ∧
    dispatched (provision cfg0 ringAll baseNode "bogus" none none) = false ∧
    invalidStateResult (provision cfg0 ringAll baseNode "bogus" none none)
      = true :=
  ⟨rfl,
    (unrecognized_target_rejected cfg0 ringAll baseNode "conductor-topic"
      "bogus" none none rfl rfl).1,
    (unrecognized_target_rejected cfg0 ringAll baseNode "conductor-topic"
      "bogus" none none rfl rfl).2 rfl rfl rfl⟩

/-- The lifecycle-relevant node fields that claim C4 lists as internal
at the API boundary, as patch path roots. -/
def lifecycleInternalPaths : List String :=
  ["/reservation", "/provision_state", "/power_state",
   "/target_power_state", "/target_provision_state", "/last_error",
   "/console_enabled", "/driver_internal_info", "/clean_step",
   "/provision_updated_at", "/raid_config"]

/-- C4.  A PATCH request containing any operation whose path root is
one of the lifecycle-relevant internal fields is rejected by the patch
validator before the handler applies anything: the patch pipeline fails
with a validation error, so none of these fields can ever be modified
through the API update path — only the conductor behind the RPC
boundary mutates them. -/
theorem patch_internal_fields_rejected (cfg : ApiConfig) (node : Node)
    (patch : List PatchOp) (p : PatchOp)
    (hp : p ∈ patch) (hroot : pathRoot p.path ∈ lifecycleInternalPaths) :
    ∃ q : String, patchGate cfg node patch = .error (.patchValidationError q) := by
  have hmem : pathRoot p.path ∈ NodePatchType_internal_attrs := by
    simp only [lifecycleInternalPaths, List.mem_cons, List.not_mem_nil,
      or_false] at hroot
    rcases hroot with h | h | h | h | h | h | h | h | h | h | h <;>
      rw [h] <;> decide
  have hpv : NodePatchType_validate p = false := by
    unfold NodePatchType_validate
    rw [show NodePatchType_internal_attrs.contains (pathRoot p.path) = true
      from List.elem_iff.mpr hmem]
    rfl
  have hfind : (patch.find? (fun q => !NodePatchType_validate q)).isSome := by
    rw [List.find?_isSome]
    exact ⟨p, hp, by simp [hpv]⟩
  unfold patchGate
  cases hf : patch.find? (fun q => !NodePatchType_validate q) with
  | none => rw [hf] at hfind; exact absurd hfind (by simp)
  | some q => exact ⟨q.path, rfl⟩

/-- A patch that replaces the provision state directly. -/
def provStatePatch : List PatchOp :=
  [{ op := "replace", path := "/provision_state", value := some (.str "active") }]

/-- C4 witness: the theorem applied to a concrete patch touching
`/provision_state`. -/
theorem patch_internal_fields_rejected_witness :
    ∃ q : String, patchGate cfg0 baseNode provStatePatch =
      .error (.patchValidationError q) :=
  patch_internal_fields_rejected cfg0 baseNode provStatePatch
    { op := "replace", path := "/provision_state", value := some (.str "active") }
    (List.mem_singleton.mpr rfl) (by decide)

/-- C5.  Every node successfully created through the create (POST)
handler is persisted with its provision state forced to the configured
initial provision state, whatever the caller supplied in the request
body; and when the request carried no UUID, the created node carries
the freshly generated one. -/
theorem post_initial_state_and_uuid (cfg : ApiConfig)
    (ring : String → Option String) (gen : String) (node created : Node)
    (h : NodesController_post cfg ring gen node = .ok created) :
    created.provision_state = cfg.initialProvisionState ∧
    (node.uuid = "" → created.uuid = gen) ∧
    (node.uuid ≠ "" → created.uuid = node.uuid) := by
  have huuid :
      created = { withGeneratedUuid gen node with
                  provision_state := cfg.initialProvisionState } →
      created.provision_state = cfg.initialProvisionState ∧
      (node.uuid = "" → created.uuid = gen) ∧
      (node.uuid ≠ "" → created.uuid = node.uuid) := by
    intro hc
    subst hc
    refine ⟨rfl, ?_, ?_⟩
    · intro hu
      have hb : (node.uuid == "") = true := by simp [hu]
      simp [withGeneratedUuid, hb]
    · intro hu
      have hb : (node.uuid == "") = false := by simp [hu]
      simp [withGeneratedUuid, hb]
  unfold NodesController_post at h
  split at h
  · exact absurd h (by simp)
  · split at h
    · exact absurd h (by simp)
    · split at h
      · split at h
        · exact absurd h (by simp)
        · simp only [Except.ok.injEq] at h
          exact huuid h.symm
      · simp only [Except.ok.injEq] at h
        exact huuid h.symm

/-- A create request body with no UUID and a caller-supplied provision
state that must be ignored. -/
def createRequestNode : Node :=
  { baseNode with uuid := "", provision_state := some "active" }

/-- The node the create fixture persists. -/
def createdNode : Node :=
  { withGeneratedUuid "gen-uuid-1" createRequestNode with
    provision_state := cfg0.initialProvisionState }

/-- C5 witness: the theorem applied to a concrete successful create
whose request carried no UUID and a bogus provision state. -/
theorem post_initial_state_and_uuid_witness :
    NodesController_post cfg0 ringAll "gen-uuid-1" createRequestNode =
      .ok createdNode ∧
    createdNode.provision_state = cfg0.initialProvisionState ∧
    createdNode.uuid = "gen-uuid-1" :=
  ⟨rfl,
    (post_initial_state_and_uuid cfg0 ringAll "gen-uuid-1" createRequestNode
      createdNode rfl).1,
    (post_initial_state_and_uuid cfg0 ringAll "gen-uuid-1" createRequestNode
      createdNode rfl).2.1 rfl⟩

/-- Unfolding equation for `validCleanStep` on an object. -/
theorem validCleanStep_obj (allowed : List String)
    (kvs : List (String × Json)) :
    validCleanStep allowed (.obj kvs) =
      ((kvs.map Prod.fst).contains "interface" &&
       (kvs.map Prod.fst).contains "step" &&
       kvs.all (cleanStepKeyOk allowed)) := rfl

/-- Unfolding equation for `checkCleanSteps` on an array. -/
theorem checkCleanSteps_arr (allowed : List String) (steps : List Json) :
    checkCleanSteps allowed (.arr steps) =
      steps.all (validCleanStep allowed) := rfl

/-- A malformed clean-steps document: one step that is an object with
neither the required `interface` nor `step` key. -/
def badCleanSteps : Json := .arr [.obj []]

/-- C6 counterexample.  The claim says a provision request with target
`clean` and a malformed step fails with `InvalidParameterValue`.  On a
node from whose state the `clean` event is not actionable and whose
reservation is held, the handler instead fails with `NodeLocked`
before the steps are ever validated. -/
theorem clean_steps_locked_counterexample :
    is_actionable_event availableLockedNode.provision_state "clean" = false ∧
    checkCleanSteps cfg0.cleaningInterfaces badCleanSteps = false ∧
    provision cfg0 ringAll availableLockedNode "clean" none
      (some badCleanSteps) = .error (.nodeLocked "node-1" "host-b") ∧
    invalidParameterResult (provision cfg0 ringAll availableLockedNode "clean"
      none (some badCleanSteps)) = false :=
  ⟨rfl, rfl, rfl, rfl⟩

/-- C6 (amended).  Provided the `clean` event is actionable from the
node's provision state (otherwise the request fails even earlier, with
`InvalidStateRequested` or `NodeLocked`): a `clean` request with absent
(or empty) clean steps fails with a client-side bad-request error; with
clean steps present, the schema decides between dispatching the clean
RPC and failing with `InvalidParameterValue`.  Supplying truthy clean
steps with any other target, and a falsy clean-steps parameter with
target `clean`, never dispatches an RPC.  The schema rejects a step
that lacks `interface` or `step`, carries any other key than
`interface`/`step`/`args`, or names an interface outside the allowed
set — and one rejected step rejects the whole document. -/
theorem clean_steps_validation (cfg : ApiConfig)
    (ring : String → Option String) (n : Node) (tp target : String)
    (cs : Option Json) (htopic : ring n.driver = some tp) :
    (is_actionable_event n.provision_state "clean" = true →
      provision cfg ring n "clean" none cs =
        match cs with
        | none => .error (.clientSideError 400)
        | some steps =>
          if !steps.truthy then .error (.clientSideError 400)
          else if checkCleanSteps cfg.cleaningInterfaces steps then
            .ok (.doNodeClean n.uuid steps)
          else .error .invalidParameterValue) ∧
    (jsonOptTruthy cs = true → target ≠ "clean" →
      dispatched (provision cfg ring n target none cs) = false) ∧
    (jsonOptTruthy cs = false →
      dispatched (provision cfg ring n "clean" none cs) = false) ∧
    (∀ kvs : List (String × Json),
      ("interface" ∈ kvs.map Prod.fst → "step" ∈ kvs.map Prod.fst → False) →
      validCleanStep cfg.cleaningInterfaces (.obj kvs) = false) ∧
    (∀ (kvs : List (String × Json)) (k : String) (v : Json), (k, v) ∈ kvs →
      k ≠ "interface" → k ≠ "step" → k ≠ "args" →
      validCleanStep cfg.cleaningInterfaces (.obj kvs) = false) ∧
    (∀ (kvs : List (String × Json)) (s : String),
      ("interface", Json.str s) ∈ kvs → s ∉ cfg.cleaningInterfaces →
      validCleanStep cfg.cleaningInterfaces (.obj kvs) = false) ∧
    (∀ (steps : List Json) (j : Json), j ∈ steps →
      validCleanStep cfg.cleaningInterfaces j = false →
      checkCleanSteps cfg.cleaningInterfaces (.arr steps) = false) := by
  refine ⟨?_, ?_, ?_, ?_, ?_, ?_, ?_⟩
  · intro hact
    unfold provision
    rw [htopic]
    rw [show verbsGet "clean" = "clean" from rfl, hact]
    simp [ACTIVE, REBUILD, DELETED, strOptTruthy, jsonOptTruthy,
      PROVISION_ACTION_STATES]
  · intro hcs hne
    unfold provision
    rw [htopic]
    cases hm : (target == ACTIVE || target == REBUILD) && n.maintenance with
    | true => simp [hm, dispatched]
    | false =>
      cases hae : is_actionable_event n.provision_state (verbsGet target) with
      | false =>
        cases hres : strOptTruthy n.reservation <;>
          simp [hm, hae, hres, dispatched]
      | true =>
        have hcs2 : (jsonOptTruthy cs && (target != "clean")) = true := by
          rw [hcs]
          simp [bne, hne]
        simp [hm, hae, hcs2, strOptTruthy, dispatched]
  · intro hcs
    unfold provision
    rw [htopic]
    cases hae : is_actionable_event n.provision_state (verbsGet "clean") with
    | false =>
      cases hres : strOptTruthy n.reservation <;>
        simp [hae, hres, dispatched, ACTIVE, REBUILD]
    | true =>
      cases cs with
      | none =>
        simp [hae, ACTIVE, REBUILD, DELETED, strOptTruthy, jsonOptTruthy,
          dispatched]
      | some steps =>
        have hst : steps.truthy = false := by
          simpa [jsonOptTruthy] using hcs
        simp [hae, ACTIVE, REBUILD, DELETED, strOptTruthy, jsonOptTruthy,
          hst, dispatched]
  · intro kvs hreq
    rw [validCleanStep_obj]
    cases hi : (kvs.map Prod.fst).contains "interface" with
    | false => simp
    | true =>
      cases hs : (kvs.map Prod.fst).contains "step" with
      | false => simp
      | true =>
        exact (hreq (List.elem_iff.mp hi) (List.elem_iff.mp hs)).elim
  · intro kvs k v hkv h1 h2 h3
    have hk : cleanStepKeyOk cfg.cleaningInterfaces (k, v) = false := by
      unfold cleanStepKeyOk
      rw [show (k == "interface") = false from by simp [h1],
          show (k == "step") = false from by simp [h2],
          show (k == "args") = false from by simp [h3]]
      rfl
    have hall : kvs.all (cleanStepKeyOk cfg.cleaningInterfaces) = false := by
      rw [List.all_eq_false]
      exact ⟨(k, v), hkv, by simp [hk]⟩
    rw [validCleanStep_obj, hall]
    simp
  · intro kvs s hkv hs
    have hc : cfg.cleaningInterfaces.contains s = false := by
      cases hcc : cfg.cleaningInterfaces.contains s with
      | false => rfl
      | true => exact absurd (List.elem_iff.mp hcc) hs
    have hk : cleanStepKeyOk cfg.cleaningInterfaces ("interface", .str s)
        = false := by
      show cfg.cleaningInterfaces.contains s = false
      exact hc
    have hall : kvs.all (cleanStepKeyOk cfg.cleaningInterfaces) = false := by
      rw [List.all_eq_false]
      exact ⟨("interface", .str s), hkv, by simp [hk]⟩
    rw [validCleanStep_obj, hall]
    simp
  · intro steps j hj hjv
    rw [checkCleanSteps_arr, List.all_eq_false]
    exact ⟨j, hj, by simp [hjv]⟩

/-- A manageable node, from whose state the clean event is actionable. -/
def manageableNode : Node :=
  { baseNode with provision_state := some "manageable" }

/-- A well-formed clean-steps document. -/
def goodCleanSteps : Json :=
  .arr [.obj [("interface", .str "deploy"), ("step", .str "upgrade_firmware"),
              ("args", .obj [("force", .bool true)])]]

/-- C6 witness: the amended theorem applied to a manageable node, on a
well-formed and a malformed document. -/
theorem clean_steps_validation_witness :
    is_actionable_event manageableNode.provision_state "clean" = true ∧
    provision cfg0 ringAll manageableNode "clean" none (some goodCleanSteps) =
      .ok (.doNodeClean "node-1" goodCleanSteps) ∧
    provision cfg0 ringAll manageableNode "clean" none (some badCleanSteps) =
      .error .invalidParameterValue :=
  ⟨rfl,
    by
      rw [(clean_steps_validation cfg0 ringAll manageableNode
        "conductor-topic" "clean" (some goodCleanSteps) rfl).1 rfl]
      rfl,
    by
      rw [(clean_steps_validation cfg0 ringAll manageableNode
        "conductor-topic" "clean" (some badCleanSteps) rfl).1 rfl]
      rfl⟩

/-- The substituted-UUID node keeps the request's driver. -/
theorem withGeneratedUuid_driver (g : String) (n : Node) :
    (withGeneratedUuid g n).driver = n.driver := by
  unfold withGeneratedUuid
  split <;> rfl

/-- A create request with an invalid network interface and a driver no
conductor serves. -/
def badNetIfaceNode : Node :=
  { baseNode with network_interface := some "bogus-iface" }

/-- C7 counterexample.  The claim says every create request whose
driver no conductor serves fails with `NoValidHost`.  This request also
carries a disabled network interface, and the handler rejects it with
the interface's client-side error before consulting the hash ring, so
the failure is not `NoValidHost`. -/
theorem no_valid_host_network_counterexample :
    ringEmpty badNetIfaceNode.driver = none ∧
    NodesController_post cfg0 ringEmpty "gen-uuid-2" badNetIfaceNode =
      .error (.clientSideError 400) ∧
    noValidHostResult (NodesController_post cfg0 ringEmpty "gen-uuid-2"
      badNetIfaceNode) = false :=
  ⟨rfl, rfl, rfl⟩

/-- C7 (amended).  When no conductor in the hash ring serves the node's
driver: a delete request always fails with `NoValidHost` re-coded to
400 and dispatches no destroy RPC; a create request that passes the
network-interface field validation fails the same way and creates
nothing. -/
theorem no_valid_host_create_delete (cfg : ApiConfig)
    (ring : String → Option String) (gen : String) (node : Node)
    (hring : ring node.driver = none)
    (hni : networkInterfaceOk cfg node = true) :
    NodesController_post cfg ring gen node = .error (.noValidHost 400) ∧
    NodesController_delete ring node = .error (.noValidHost 400) := by
  constructor
  · unfold NodesController_post
    rw [hni, withGeneratedUuid_driver, hring]
    rfl
  · unfold NodesController_delete
    rw [hring]

/-- C7 witness: the amended theorem applied to a valid request against
an empty ring. -/
theorem no_valid_host_create_delete_witness :
    ringEmpty baseNode.driver = none ∧
    NodesController_post cfg0 ringEmpty "gen-uuid-3" baseNode =
      .error (.noValidHost 400) ∧
    NodesController_delete ringEmpty baseNode = .error (.noValidHost 400) :=
  ⟨rfl,
    (no_valid_host_create_delete cfg0 ringEmpty "gen-uuid-3" baseNode
      rfl rfl).1,
    (no_valid_host_create_delete cfg0 ringEmpty "gen-uuid-3" baseNode
      rfl rfl).2⟩

/-- An available node, as stored. -/
def availableNode : Node := { baseNode with provision_state := some "available" }

/-- C8 counterexample.  The claim says the states GET returns exactly
the stored provision state.  At API version 1.1 a stored `available` is
reported as the legacy no-state value (`None`), not the stored value. -/
theorem states_get_old_version_counterexample :
    availableNode.provision_state = some "available" ∧
    (NodeStatesController_get 1 availableNode).1.provision_state =
      some none ∧
    (NodeStatesController_get 1 availableNode).1.provision_state ≠
      some availableNode.provision_state ∧
    (NodeStatesController_get 1 availableNode).2 = availableNode :=
  ⟨rfl, rfl, by decide, rfl⟩

/-- C8 (amended).  The states GET acquires no lease and mutates
nothing: the stored node after the request is exactly the node read.
The returned document carries exactly the stored `console_enabled`,
`last_error`, `power_state`, `target_power_state`,
`target_provision_state` and `provision_updated_at`; the RAID fields
exactly when the API version allows them (1.12 and up) and unset below;
and exactly the stored `provision_state` — except that below API
version 1.2 a stored `available` is reported as the legacy no-state
value. -/
theorem states_get_exact_and_frame (v : Nat) (n : Node) :
    (NodeStatesController_get v n).2 = n ∧
    (NodeStatesController_get v n).1.console_enabled = some n.console_enabled ∧
    (NodeStatesController_get v n).1.last_error = some n.last_error ∧
    (NodeStatesController_get v n).1.power_state = some n.power_state ∧
    (NodeStatesController_get v n).1.target_power_state =
      some n.target_power_state ∧
    (NodeStatesController_get v n).1.target_provision_state =
      some n.target_provision_state ∧
    (NodeStatesController_get v n).1.provision_updated_at =
      some n.provision_updated_at ∧
    (NodeStatesController_get v n).1.provision_state =
      some (if decide (v < MINOR_2_AVAILABLE_STATE) &&
              n.provision_state == some AVAILABLE
            then none else n.provision_state) ∧
    (NodeStatesController_get v n).1.raid_config =
      (if allow_raid_config v then some n.raid_config else none) ∧
    (NodeStatesController_get v n).1.target_raid_config =
      (if allow_raid_config v then some n.target_raid_config else none) :=
  ⟨rfl, rfl, rfl, rfl, rfl, rfl, rfl, rfl, rfl, rfl⟩

/-- A node mid-transition: deploying towards active. -/
def transitioningNode : Node :=
  { baseNode with provision_state := some "deploying",
                  target_provision_state := some "active" }

/-- A patch that touches an internal attribute. -/
def powerStatePatch : List PatchOp :=
  [{ op := "replace", path := "/power_state", value := some (.str "power on") }]

/-- C9 counterexample.  The claim says every patch on a transitioning
node outside the update-allowed states is rejected with HTTP 409.  A
patch touching `/power_state` on such a node is rejected by the patch
validator with a 400-class validation error instead — the per-operation
validation runs before the transition conflict check. -/
theorem patch_internal_not_conflict_counterexample :
    strOptTruthy transitioningNode.target_provision_state = true ∧
    cfg0.updateAllowedStates.contains "deploying" = false ∧
    patchGate cfg0 transitioningNode powerStatePatch =
      .error (.patchValidationError "/power_state") ∧
    conflict409 (patchGate cfg0 transitioningNode powerStatePatch) = false :=
  ⟨rfl, rfl, rfl, rfl⟩

/-- C9 (amended).  For a patch whose operations all pass the
per-operation validation and whose `/network_interface` values (if any)
are acceptable, on a node whose target provision state is set while its
provision state is outside the update-allowed set: the request is
rejected with an HTTP 409 conflict — and being rejected before
application, it modifies nothing — unless the node is in maintenance
mode and the patch consists solely of removing `/instance_uuid`, in
which case it passes the gate. -/
theorem patch_conflict_when_transitioning (cfg : ApiConfig) (node : Node)
    (patch : List PatchOp)
    (hvalid : patch.find? (fun p => !NodePatchType_validate p) = none)
    (hni : (get_patch_values patch "/network_interface").any
      (badNetworkInterfaceValue cfg) = false)
    (htgt : strOptTruthy node.target_provision_state = true)
    (hstate : (match node.provision_state with
               | some s => cfg.updateAllowedStates.contains s
               | none => false) = false) :
    ((node.maintenance && isRemoveInstUuidPatch patch) = false →
      patchGate cfg node patch = .error (.clientSideError 409)) ∧
    ((node.maintenance && isRemoveInstUuidPatch patch) = true →
      patchGate cfg node patch = .ok ()) := by
  constructor
  · intro hmb
    unfold patchGate
    rw [hvalid, hni, hmb, htgt, hstate]
    rfl
  · intro hmb
    unfold patchGate
    rw [hvalid, hni, hmb]
    rfl

/-- A maintenance node mid-transition with an instance attached. -/
def maintTransitioningNode : Node :=
  { baseNode with provision_state := some "deploying",
                  target_provision_state := some "active",
                  maintenance := true, instance_uuid := some "inst-1" }

/-- The patch that solely removes the instance UUID. -/
def removeInstUuidOnly : List PatchOp :=
  [{ op := "remove", path := "/instance_uuid", value := none }]

/-- A benign patch touching a writable field. -/
def extraPatch : List PatchOp :=
  [{ op := "replace", path := "/extra", value := some (.obj []) }]

/-- C9 witness: the amended theorem applied to a transitioning node —
the benign patch is rejected 409, and the maintenance instance-UUID
removal passes the gate. -/
theorem patch_conflict_when_transitioning_witness :
    patchGate cfg0 transitioningNode extraPatch =
      .error (.clientSideError 409) ∧
    patchGate cfg0 maintTransitioningNode removeInstUuidOnly = .ok () :=
  ⟨(patch_conflict_when_transitioning cfg0 transitioningNode extraPatch
      rfl rfl rfl rfl).1 rfl,
   (patch_conflict_when_transitioning cfg0 maintTransitioningNode
      removeInstUuidOnly rfl rfl rfl rfl).2 rfl⟩

/-- C10.  The vendor-methods lookup is cached per driver name for the
lifetime of the API process.  On the first call for an uncached driver
the RPC lookup runs (once) and its answer is stored under the driver
name; any later call for any node with the same driver returns the
stored dictionary with no further RPC — whatever the conductor (`rpc2`,
`ring2`) would answer by then. -/
theorem vendor_methods_cached_per_driver
    (ring1 ring2 : String → Option String) (rpc1 rpc2 : String → String)
    (cache : List (String × String)) (n1 n2 : Node) (tp : String)
    (hdrv : n2.driver = n1.driver)
    (hmiss : cache.lookup n1.driver = none)
    (htopic : ring1 n1.driver = some tp) :
    vendorPassthruMethods ring1 rpc1 cache n1 =
      .ok (rpc1 n1.uuid, (n1.driver, rpc1 n1.uuid) :: cache, 1) ∧
    vendorPassthruMethods ring2 rpc2 ((n1.driver, rpc1 n1.uuid) :: cache) n2 =
      .ok (rpc1 n1.uuid, (n1.driver, rpc1 n1.uuid) :: cache, 0) := by
  constructor
  · unfold vendorPassthruMethods
    rw [hmiss, htopic]
  · unfold vendorPassthruMethods
    rw [hdrv]
    simp [List.lookup]

/-- Two nodes sharing a driver. -/
def otherNodeSameDriver : Node := { baseNode with uuid := "node-2" }

/-- C10 witness: the theorem applied to two concrete nodes with the
same driver, with a conductor answer that changes between the calls. -/
theorem vendor_methods_cached_per_driver_witness :
    vendorPassthruMethods ringAll (fun _ => "methods-v1") [] baseNode =
      .ok ("methods-v1", [("fake-driver", "methods-v1")], 1) ∧
    vendorPassthruMethods ringEmpty (fun _ => "methods-v2")
      [("fake-driver", "methods-v1")] otherNodeSameDriver =
      .ok ("methods-v1", [("fake-driver", "methods-v1")], 0) :=
  ⟨(vendor_methods_cached_per_driver ringAll ringEmpty
      (fun _ => "methods-v1") (fun _ => "methods-v2") [] baseNode
      otherNodeSameDriver "conductor-topic" rfl rfl rfl).1,
   (vendor_methods_cached_per_driver ringAll ringEmpty
      (fun _ => "methods-v1") (fun _ => "methods-v2") [] baseNode
      otherNodeSameDriver "conductor-topic" rfl rfl rfl).2⟩

end Ironic
